import Mathlib

/-!
Shallow embedding of the sync / conflict-resolution core of the travel-plan
application (Settings.tsx, the Planner component, and the spec of the
`SupabaseService` backend adapter whose implementation is not part of the
repository sources).  Pure data is translated directly; React state updates
are modelled as explicit state-passing functions; network calls are modelled
by passing the fetched/ written values (or an `Except` failure) as arguments.
-/

namespace Wanderlust

/-- A Trip Aggregate: immutable `id` plus the mutable descriptive fields that
the sync core carries around (`Trip` in types.ts; only the fields the claims
touch are listed, the rest behave identically under copy/merge). -/
structure Trip where
  id : String
  title : String
  location : String
  startDate : String
  endDate : String
  description : String
  budget : Int
deriving DecidableEq, Repr

/-- The complete exportable state for one Sync Identifier (`fullData` in
Settings.tsx): trips plus profile and loose calendar events, the latter two
kept abstract since the merge replaces them wholesale. -/
structure Dataset where
  trips : List Trip
  userProfile : String
  customEvents : List String
deriving DecidableEq, Repr

/-- One field-level difference between the local and remote copy of the same
trip (`ConflictItem` in supabaseService.ts, re-exported by Settings.tsx). -/
structure ConflictItem where
  tripId : String
  tripTitle : String
  field : String
  localValue : String
  remoteValue : String
deriving DecidableEq, Repr

/-- The Resolution Map `Record<string, 'local' | 'remote'>`, modelled as an
association list; JS object lookup is first-match lookup because every build
site inserts each key at most once per pass. -/
abbrev ResolutionMap := List (String × String)

/-- Lookup of `resolutionMap[tripId]`. -/
def lookupRes (m : ResolutionMap) (k : String) : Option String :=
  (m.find? (fun p => p.1 = k)).map Prod.snd

/-- `trips.find(t => t.id === id)`. -/
def findTrip (ts : List Trip) (i : String) : Option Trip :=
  ts.find? (fun t => t.id = i)

/-- Modelled from the spec: the Merge Engine `merge(localDataset,
remoteDataset, resolutionMap)` inside `SupabaseService.saveGlobalBackup`,
whose implementation is not under src/ (only its caller Settings.tsx is).
Spec 4.3: output trips are (local-only) ∪ (remote-only) ∪ (for each shared
tripId the copy chosen by the Resolution Map, missing entries defaulting to
the local copy); profile and loose events are replaced wholesale with the
local side. -/
def merge (localData remoteData : Dataset) (res : ResolutionMap) : Dataset :=
  { trips :=
      (localData.trips.map (fun t =>
        match findTrip remoteData.trips t.id with
        | none => t
        | some rt => if lookupRes res t.id = some "remote" then rt else t))
      ++ remoteData.trips.filter (fun rt => (findTrip localData.trips rt.id).isNone)
  , userProfile := localData.userProfile
  , customEvents := localData.customEvents }

/-- The Remote Backup Store: one Dataset blob per Sync Identifier. -/
abbrev RemoteStore := List (String × Dataset)

/-- Reading the blob stored under an identifier. -/
def storeRead (store : RemoteStore) (k : String) : Option Dataset :=
  (store.find? (fun p => p.1 = k)).map Prod.snd

/-- Writing (upserting) the blob stored under an identifier. -/
def storeWrite (store : RemoteStore) (k : String) (d : Dataset) : RemoteStore :=
  (k, d) :: store.filter (fun p => ¬ p.1 = k)

/-- Modelled from the spec: `SupabaseService.saveGlobalBackup(syncId,
fullData, remoteData, resolutions)` (implementation not under src/).  Spec
4.3: it merges, writes the merged Dataset to the Remote Backup Store under
the active identifier, and returns that same merged value to the caller with
no second read-back; a failing write raises `RemoteUnavailable` and leaves
the store unchanged.  `writeOk` models whether the network write succeeds;
`remoteData` is `none` when no remote blob existed (NotFound), in which case
the merge degenerates to the local dataset. -/
def saveGlobalBackup (writeOk : Bool) (syncId : String) (localData : Dataset)
    (remoteData : Option Dataset) (res : ResolutionMap) (store : RemoteStore) :
    Except String (RemoteStore × Dataset) :=
  if writeOk then
    let mergedData :=
      match remoteData with
      | some r => merge localData r res
      | none => localData
    Except.ok (storeWrite store syncId mergedData, mergedData)
  else Except.error "RemoteUnavailable"

/-- The React state of the Settings component that the sync flow touches
(Settings.tsx lines 31-41), plus `localData` for the `fullData` prop that
`onImportData` replaces. -/
structure SettingsState where
  syncId : String
  localData : Dataset
  isSyncing : Bool
  syncStatus : String
  conflicts : List ConflictItem
  remoteDataCache : Option Dataset
  resolutionMap : ResolutionMap
  showConflictModal : Bool
deriving DecidableEq, Repr

/-- Component state together with the Remote Backup Store. -/
structure World where
  ui : SettingsState
  store : RemoteStore
deriving DecidableEq, Repr

/-- `performSync(remoteData, resolutions)` (Settings.tsx lines 139-162):
awaits `SupabaseService.saveGlobalBackup`; on success imports the returned
merged dataset (`onImportData(mergedData)`), sets status success, closes the
conflict modal and clears `conflicts`/`remoteDataCache`; on a thrown failure
sets status error; `finally` clears `isSyncing`. -/
def performSync (writeOk : Bool) (remoteData : Option Dataset)
    (res : ResolutionMap) (w : World) : World :=
  match saveGlobalBackup writeOk w.ui.syncId w.ui.localData remoteData res w.store with
  | Except.ok (store2, mergedData) =>
      { ui := { w.ui with
          localData := mergedData
        , syncStatus := "success"
        , showConflictModal := false
        , conflicts := []
        , remoteDataCache := none
        , isSyncing := false }
      , store := store2 }
  | Except.error _ =>
      { w with ui := { w.ui with syncStatus := "error", isSyncing := false } }

/-- The initial Resolution Map built in `handleCloudSync` (Settings.tsx lines
119-121): `foundConflicts.forEach(c => initialMap[c.tripId] = 'local')`.
Duplicate tripIds collapse in the JS object; in the association list they
yield duplicate entries whose first-match lookup is the same `"local"`. -/
def initResolutionMap (foundConflicts : List ConflictItem) : ResolutionMap :=
  foundConflicts.map (fun c => (c.tripId, "local"))

/-- The value returned by `SupabaseService.checkForConflicts` (the Snapshot
Differ): the conflict report plus the fetched remote dataset passed through. -/
structure ConflictCheck where
  conflicts : List ConflictItem
  remoteData : Option Dataset
deriving DecidableEq, Repr

/-- `handleCloudSync` (Settings.tsx lines 110-137).  `fetch` is the awaited
result of `checkForConflicts` (an exception models `RemoteUnavailable`).
With conflicts present it caches the fresh remote data, initialises the
Resolution Map to all-`"local"` and opens the modal; otherwise it proceeds
straight to `performSync(remoteData, {})`. -/
def handleCloudSync (fetch : Except String ConflictCheck) (writeOk : Bool)
    (w : World) : World :=
  match fetch with
  | Except.error _ =>
      { w with ui := { w.ui with syncStatus := "error", isSyncing := false } }
  | Except.ok chk =>
      if chk.conflicts.length > 0 then
        { w with ui := { w.ui with
            isSyncing := false
          , syncStatus := "idle"
          , conflicts := chk.conflicts
          , remoteDataCache := chk.remoteData
          , resolutionMap := initResolutionMap chk.conflicts
          , showConflictModal := true } }
      else
        performSync writeOk chk.remoteData []
          { w with ui := { w.ui with isSyncing := true, syncStatus := "idle" } }

/-- Cancelling at the conflict modal (Settings.tsx lines 559 and 626): both
the backdrop click and the cancel button run only
`setShowConflictModal(false)`. -/
def cancelConflictModal (w : World) : World :=
  { w with ui := { w.ui with showConflictModal := false } }

/-- `handleConfirmResolution` (Settings.tsx lines 168-170):
`performSync(remoteDataCache, resolutionMap)`.  The confirm button is only
rendered while `showConflictModal` is true (line 557), so the event can only
fire in that state; the guard models that reachability. -/
def handleConfirmResolution (writeOk : Bool) (w : World) : World :=
  if w.ui.showConflictModal then
    performSync writeOk w.ui.remoteDataCache w.ui.resolutionMap w
  else w

/-- A Trip Version snapshot (`TripVersion` in types.ts). -/
structure TripVersion where
  id : String
  tripId : String
  timestamp : Nat
  note : String
  data : Trip
deriving DecidableEq, Repr

/-- `handleRestoreVersion(version)` in the Planner component
(src/unnamed/part_002 lines 792-815), with the current `editingTripId` and
the outcome of the `window.confirm` dialog made explicit.  On confirmation it
builds `restoredTrip = { ...version.data, id: editingTripId }` and hands it
to `onUpdateTrip`; it never touches the version store, so the version list is
passed through unchanged.  Returns the (unchanged) versions plus the restored
aggregate handed to the caller (`none` when the user declined). -/
def handleRestoreVersion (version : TripVersion) (editingTripId : String)
    (confirmed : Bool) (versions : List TripVersion) :
    List TripVersion × Option Trip :=
  if confirmed then
    let restoredTrip := { version.data with id := editingTripId }
    (versions, some restoredTrip)
  else
    (versions, none)

/-- The Planner edit-form state merged into the trip being saved
(src/unnamed/part_002 lines 699-706 and 775). -/
structure TripFormState where
  title : String
  location : String
  startDate : String
  endDate : String
  description : String
  budget : Int
deriving DecidableEq, Repr

/-- `{ ...currentTrip, ...formState }` (src/unnamed/part_002 line 775). -/
def applyFormState (t : Trip) (fs : TripFormState) : Trip :=
  { t with
      title := fs.title
    , location := fs.location
    , startDate := fs.startDate
    , endDate := fs.endDate
    , description := fs.description
    , budget := fs.budget }

/-- Modelled from the spec: `SupabaseService.saveTripVersion(trip, note)`
(implementation not under src/).  Spec 4.4 / 6: `appendVersion` appends one
new Trip Version with the given note and a frozen copy of the trip to the
append-only list; the generated row id and timestamp are supplied by the
store and modelled as arguments. -/
def saveTripVersion (versionId : String) (timestamp : Nat) (trip : Trip)
    (note : String) (versionStore : List TripVersion) : List TripVersion :=
  versionStore ++ [{ id := versionId, tripId := trip.id, timestamp := timestamp,
                     note := note, data := trip }]

/-- `handleSaveVersion` (src/unnamed/part_002 lines 770-790): guards on a trip
being edited and found, merges the form state into it, and calls
`saveTripVersion(tripToSave, versionNote || 'Auto-save')` — the empty note
falls back to the placeholder because the empty string is falsy in JS. -/
def handleSaveVersion (editingTripId : Option String) (trips : List Trip)
    (formState : TripFormState) (versionNote : String)
    (versionId : String) (timestamp : Nat)
    (versionStore : List TripVersion) : List TripVersion :=
  match editingTripId with
  | none => versionStore
  | some tid =>
    match trips.find? (fun t => t.id = tid) with
    | none => versionStore
    | some currentTrip =>
        let tripToSave := applyFormState currentTrip formState
        saveTripVersion versionId timestamp tripToSave
          (if versionNote = "" then "Auto-save" else versionNote) versionStore

/-- `String.prototype.toUpperCase()` on the ASCII identifiers this app
produces. -/
def jsToUpperCase (s : String) : String :=
  String.mk (s.data.map Char.toUpper)

/-- `String.prototype.trim()` on the ASCII identifiers this app produces:
strip leading and trailing whitespace. -/
def jsTrim (s : String) : String :=
  String.mk
    (((s.data.dropWhile Char.isWhitespace).reverse.dropWhile
        Char.isWhitespace).reverse)

/-- One character of the valid Sync Identifier alphabet, the regex class
`[A-Z0-9-]` of Settings.tsx line 212. -/
def isValidIdChar (c : Char) : Bool :=
  (decide ('A' ≤ c) && decide (c ≤ 'Z'))
  || (decide ('0' ≤ c) && decide (c ≤ '9'))
  || decide (c = '-')

/-- `/^[A-Z0-9-]+$/.test(s)`: nonempty and every character in the class. -/
def validSyncId (s : String) : Bool :=
  (!s.data.isEmpty) && s.data.all isValidIdChar

/-- The observable outcome of `saveEditedId`. -/
structure SaveIdOutcome where
  networkCalled : Bool
  syncId : String
  warnedExisting : Bool
  isEditingId : Bool
deriving DecidableEq, Repr

/-- `saveEditedId` (Settings.tsx lines 202-238).  Normalises the typed id
(`tempId.trim().toUpperCase()`), exits editing when it is empty or unchanged,
rejects it before any network call when shorter than 4 characters or outside
`[A-Z0-9-]`, otherwise probes the store (`loadGlobalBackup(newId)`, whose
awaited result or thrown failure is the `fetch` argument), warns when remote
data already exists under the new id, and commits the switch only when the
user confirms. -/
def saveEditedId (syncId tempId : String)
    (fetch : Except Unit (Option Dataset)) (confirms : Bool) : SaveIdOutcome :=
  let newId := jsToUpperCase (jsTrim tempId)
  if newId = "" ∨ newId = syncId then
    { networkCalled := false, syncId := syncId, warnedExisting := false,
      isEditingId := false }
  else if newId.length < 4 then
    { networkCalled := false, syncId := syncId, warnedExisting := false,
      isEditingId := true }
  else if !validSyncId newId then
    { networkCalled := false, syncId := syncId, warnedExisting := false,
      isEditingId := true }
  else
    match fetch with
    | Except.error _ =>
        { networkCalled := true, syncId := syncId, warnedExisting := false,
          isEditingId := true }
    | Except.ok existing =>
        if confirms then
          { networkCalled := true, syncId := newId,
            warnedExisting := existing.isSome, isEditingId := false }
        else
          { networkCalled := true, syncId := syncId,
            warnedExisting := existing.isSome, isEditingId := true }

/-- One base-36 digit rendered as JS `Number.prototype.toString(36)` renders
it: `0`-`9` then lowercase `a`-`z`. -/
def base36Char (d : Nat) : Char :=
  if d < 10 then Char.ofNat (48 + d) else Char.ofNat (87 + d)

/-- `r.toString(36)` for `r = Math.random() ∈ [0,1)`, the draw represented by
the finite list of base-36 digits of its fractional expansion: `0` renders as
`"0"` (empty digit list), anything else as `"0."` followed by the digits. -/
def jsNumToString36 (fracDigits : List Nat) : String :=
  match fracDigits with
  | [] => "0"
  | ds => "0." ++ String.mk (ds.map base36Char)

/-- `String.prototype.substring(startIdx, endIdx)` (clamping at the end of
the string). -/
def jsSubstring (s : String) (startIdx endIdx : Nat) : String :=
  String.mk ((s.data.drop startIdx).take (endIdx - startIdx))

/-- The generated Sync Identifier of Settings.tsx line 65:
`Math.random().toString(36).substring(2, 10).toUpperCase()`. -/
def generateSyncId (fracDigits : List Nat) : String :=
  jsToUpperCase (jsSubstring (jsNumToString36 fracDigits) 2 10)

/-- The mount effect of Settings.tsx lines 63-69: when no Sync Identifier is
stored, generate one, persist it (`localStorage.setItem`) and set the state.
Returns the resulting identifier and the value persisted (if any). -/
def syncIdEffect (syncId : String) (fracDigits : List Nat) :
    String × Option String :=
  if syncId = "" then
    (generateSyncId fracDigits, some (generateSyncId fracDigits))
  else
    (syncId, none)

/-- Sample trip used by the concrete witnesses. -/
def tripA : Trip :=
  { id := "A", title := "Tokyo", location := "JP", startDate := "2025-01-01",
    endDate := "2025-01-05", description := "", budget := 100 }

/-- The remote copy of `tripA` with a differing budget. -/
def tripA2 : Trip := { tripA with budget := 200 }

/-- Sample remote-only trip. -/
def tripB : Trip :=
  { id := "B", title := "Paris", location := "FR", startDate := "2025-02-01",
    endDate := "2025-02-03", description := "", budget := 50 }

/-- Sample local dataset. -/
def dsL : Dataset := { trips := [tripA], userProfile := "p", customEvents := [] }

/-- Sample remote dataset conflicting with `dsL` on trip `A`. -/
def dsR : Dataset := { trips := [tripA2, tripB], userProfile := "q", customEvents := [] }

/-- Sample remote dataset disjoint from `dsL`. -/
def dsB : Dataset := { trips := [tripB], userProfile := "q", customEvents := [] }

/-- Sample conflict item for trip `A`. -/
def conflictA : ConflictItem :=
  { tripId := "A", tripTitle := "Tokyo", field := "budget",
    localValue := "100", remoteValue := "200" }

/-- Sample world used by the concrete witnesses. -/
def world0 : World :=
  { ui := { syncId := "SYNCID01", localData := dsL, isSyncing := false,
            syncStatus := "idle", conflicts := [], remoteDataCache := none,
            resolutionMap := [], showConflictModal := false }
  , store := [] }

/-- Sample world sitting at the open conflict modal. -/
def world1 : World :=
  { ui := { syncId := "SYNCID01", localData := dsL, isSyncing := false,
            syncStatus := "idle", conflicts := [conflictA],
            remoteDataCache := some dsR,
            resolutionMap := [("A", "local")], showConflictModal := true }
  , store := [] }

/-- Sample Planner form state used by the concrete witnesses. -/
def fs0 : TripFormState :=
  { title := "Tokyo v2", location := "JP", startDate := "2025-01-01",
    endDate := "2025-01-06", description := "longer stay", budget := 150 }

/-! Helper lemmas. -/

/-- A trip found by id carries that id. -/
theorem findTrip_id {ts : List Trip} {i : String} {t : Trip}
    (h : findTrip ts i = some t) : t.id = i := by
  have hp := List.find?_some h
  simpa using hp

/-- A trip found by id is a member of the list. -/
theorem findTrip_mem {ts : List Trip} {i : String} {t : Trip}
    (h : findTrip ts i = some t) : t ∈ ts :=
  List.mem_of_find?_eq_some h

/-- If no trip in the list carries the id, the lookup fails. -/
theorem findTrip_eq_none {ts : List Trip} {i : String}
    (h : ∀ t ∈ ts, t.id ≠ i) : findTrip ts i = none := by
  apply List.find?_eq_none.2
  intro t ht
  simpa using h t ht

/-- The image of a local trip under the merge resolution step keeps its id. -/
theorem merge_resolveLocal_id (remoteData : Dataset) (res : ResolutionMap)
    (t : Trip) :
    (match findTrip remoteData.trips t.id with
     | none => t
     | some rt => if lookupRes res t.id = some "remote" then rt else t).id
      = t.id := by
  cases hf : findTrip remoteData.trips t.id with
  | none => rfl
  | some rt =>
      by_cases hres : lookupRes res t.id = some "remote"
      · simp only [hres, if_pos rfl]
        exact findTrip_id hf
      · simp [hres]

/-- Reading back an identifier just written yields exactly the written blob. -/
theorem storeRead_storeWrite (store : RemoteStore) (k : String) (d : Dataset) :
    storeRead (storeWrite store k d) k = some d := by
  simp [storeRead, storeWrite]

/-! Claim theorems. -/

/-- C1: every tripId present in the local or the remote Dataset appears in
the merged Dataset for any Resolution Map (no trip aggregate is silently
deleted), and for datasets with disjoint trip id sets `merge(L, R, {})`
contains exactly `|L.trips| + |R.trips|` trips. -/
theorem merge_no_data_loss_and_union :
    (∀ (L R : Dataset) (res : ResolutionMap) (i : String),
        ((∃ t ∈ L.trips, t.id = i) ∨ (∃ t ∈ R.trips, t.id = i)) →
        ∃ t ∈ (merge L R res).trips, t.id = i)
    ∧ (∀ L R : Dataset,
        (∀ t ∈ L.trips, ∀ u ∈ R.trips, t.id ≠ u.id) →
        (merge L R []).trips.length = L.trips.length + R.trips.length) := by
  constructor
  · intro L R res i hmem
    by_cases hL : ∃ t ∈ L.trips, t.id = i
    · obtain ⟨t, htmem, htid⟩ := hL
      refine ⟨_, List.mem_append_left _ (List.mem_map_of_mem _ htmem), ?_⟩
      rw [merge_resolveLocal_id R res t]
      exact htid
    · rcases hmem with hl | hr
      · exact absurd hl hL
      · obtain ⟨u, humem, huid⟩ := hr
        refine ⟨u, List.mem_append_right _ ?_, huid⟩
        rw [List.mem_filter]
        refine ⟨humem, ?_⟩
        have hnone : findTrip L.trips u.id = none := by
          apply findTrip_eq_none
          intro t htmem htid
          exact hL ⟨t, htmem, by rw [htid, huid]⟩
        simp [hnone]
  · intro L R hdisj
    have hfilter : R.trips.filter
        (fun rt => (findTrip L.trips rt.id).isNone) = R.trips := by
      apply List.filter_eq_self.2
      intro u humem
      have hnone : findTrip L.trips u.id = none := by
        apply findTrip_eq_none
        intro t htmem htid
        exact hdisj t htmem u humem htid
      simp [hnone]
    simp [merge, hfilter]

/-- C1 witness: merging the concrete disjoint datasets `dsL` and `dsB` with
an empty Resolution Map keeps tripId `B` and has exactly `1 + 1` trips. -/
theorem merge_no_data_loss_and_union_witness :
    (∃ t ∈ (merge dsL dsB []).trips, t.id = "B")
    ∧ (merge dsL dsB []).trips.length = dsL.trips.length + dsB.trips.length :=
  ⟨merge_no_data_loss_and_union.1 dsL dsB [] "B" (Or.inr (by decide)),
   merge_no_data_loss_and_union.2 dsL dsB (by decide)⟩

/-- C2: the restore operation (confirmed) hands the caller a Trip Aggregate
equal to the stored version data with its id forced to the target trip id —
for every version and target, hence also when `version.data.id` differs from
the target — and leaves the stored Trip Version list untouched. -/
theorem handleRestoreVersion_retargets (version : TripVersion)
    (targetId : String) (versions : List TripVersion) :
    (handleRestoreVersion version targetId true versions).1 = versions
    ∧ (handleRestoreVersion version targetId true versions).2
        = some { version.data with id := targetId }
    ∧ ∃ restored : Trip,
        (handleRestoreVersion version targetId true versions).2 = some restored
        ∧ restored.id = targetId
        ∧ restored.title = version.data.title
        ∧ restored.location = version.data.location
        ∧ restored.startDate = version.data.startDate
        ∧ restored.endDate = version.data.endDate
        ∧ restored.description = version.data.description
        ∧ restored.budget = version.data.budget := by
  refine ⟨rfl, rfl, { version.data with id := targetId }, rfl, ?_⟩
  simp

/-- C3: the Resolution Collector initialises the map with `"local"` for every
tripId that has a Conflict Item, and a local trip whose id is absent from the
Resolution Map survives into the merged Dataset (defaulting is to the local
side). -/
theorem resolution_default_local :
    (∀ (foundConflicts : List ConflictItem) (c : ConflictItem),
        c ∈ foundConflicts →
        lookupRes (initResolutionMap foundConflicts) c.tripId = some "local")
    ∧ (∀ (L R : Dataset) (res : ResolutionMap) (t : Trip),
        t ∈ L.trips → lookupRes res t.id = none →
        t ∈ (merge L R res).trips) := by
  constructor
  · intro foundConflicts c hc
    have hsome : ((initResolutionMap foundConflicts).find?
        (fun p => p.1 = c.tripId)).isSome := by
      rw [List.find?_isSome]
      exact ⟨(c.tripId, "local"),
        List.mem_map_of_mem _ hc, by simp⟩
    obtain ⟨pr, hpr⟩ := Option.isSome_iff_exists.1 hsome
    have hprmem := List.mem_of_find?_eq_some hpr
    have hsnd : pr.2 = "local" := by
      obtain ⟨c2, _, hc2⟩ := List.mem_map.1 hprmem
      rw [← hc2]
    rw [lookupRes, hpr]
    simp [hsnd]
  · intro L R res t htmem hres
    apply List.mem_append_left
    have himg :
        (match findTrip R.trips t.id with
         | none => t
         | some rt => if lookupRes res t.id = some "remote" then rt else t)
          = t := by
      cases hf : findTrip R.trips t.id with
      | none => rfl
      | some rt => simp [hres]
    have hmapped := List.mem_map_of_mem
      (fun t : Trip =>
        match findTrip R.trips t.id with
        | none => t
        | some rt => if lookupRes res t.id = some "remote" then rt else t)
      htmem
    simpa only [himg] using hmapped

/-- C3 witness: the single conflict on trip `A` initialises the map to
`A ↦ "local"`, and the local copy `tripA` survives a merge against the
conflicting remote `dsR` with an empty Resolution Map. -/
theorem resolution_default_local_witness :
    lookupRes (initResolutionMap [conflictA]) "A" = some "local"
    ∧ tripA ∈ (merge dsL dsR []).trips :=
  ⟨resolution_default_local.1 [conflictA] conflictA (by decide),
   resolution_default_local.2 dsL dsR [] tripA (by decide) (by decide)⟩

/-- C4: when the remote write fails, `performSync` leaves local state and the
Remote Backup Store untouched and reports the merge as failed; moreover local
state only ever changes when the write succeeded (on every execution path of
`performSync`). -/
theorem performSync_failure_no_mutation :
    (∀ (remoteData : Option Dataset) (res : ResolutionMap) (w : World),
        (performSync false remoteData res w).ui.localData = w.ui.localData
        ∧ (performSync false remoteData res w).store = w.store
        ∧ (performSync false remoteData res w).ui.syncStatus = "error")
    ∧ (∀ (writeOk : Bool) (remoteData : Option Dataset) (res : ResolutionMap)
          (w : World),
        (performSync writeOk remoteData res w).ui.localData ≠ w.ui.localData →
        writeOk = true) := by
  constructor
  · intro remoteData res w
    exact ⟨rfl, rfl, rfl⟩
  · intro writeOk remoteData res w hchanged
    cases writeOk with
    | true => rfl
    | false => exact absurd rfl hchanged

/-- C4 witness: at the concrete world `world0`, a failing write leaves local
state, store and an `"error"` status; and a run that did change local state
had `writeOk = true`. -/
theorem performSync_failure_no_mutation_witness :
    ((performSync false (some dsB) [] world0).ui.localData = world0.ui.localData
      ∧ (performSync false (some dsB) [] world0).store = world0.store
      ∧ (performSync false (some dsB) [] world0).ui.syncStatus = "error")
    ∧ true = true :=
  ⟨performSync_failure_no_mutation.1 (some dsB) [] world0,
   performSync_failure_no_mutation.2 true (some dsB) [] world0 (by decide)⟩

/-- C5: the successful sync writes one merged Dataset `d` to the Remote
Backup Store and returns that very same value — `saveGlobalBackup` yields
`(storeWrite store syncId d, d)` with a single `d` and no read-back — and
`performSync` replaces local state with exactly the value the store now holds
under the active identifier. -/
theorem merged_write_equals_return (remoteData : Option Dataset)
    (res : ResolutionMap) (w : World) :
    ∃ d : Dataset,
      saveGlobalBackup true w.ui.syncId w.ui.localData remoteData res w.store
        = Except.ok (storeWrite w.store w.ui.syncId d, d)
      ∧ storeRead (performSync true remoteData res w).store w.ui.syncId = some d
      ∧ (performSync true remoteData res w).ui.localData = d := by
  refine ⟨match remoteData with
          | some r => merge w.ui.localData r res
          | none => w.ui.localData, rfl, ?_, rfl⟩
  cases remoteData with
  | none => exact storeRead_storeWrite w.store w.ui.syncId _
  | some r => exact storeRead_storeWrite w.store w.ui.syncId _

/-- C6 counterexample: at the concrete world `world1` (conflict modal open,
remote dataset cached, resolution map initialised), cancelling only closes
the modal: the resolution map and the cached remote Dataset are *not*
discarded, contradicting the claim that cancelling discards them. -/
theorem cancel_retains_cache_counterexample :
    ¬ ((cancelConflictModal world1).ui.remoteDataCache = none
       ∧ (cancelConflictModal world1).ui.resolutionMap = []) := by
  intro h
  exact absurd h.1 (by decide)

/-- C6 amended: cancelling at the Resolution Collector step closes the modal
and aborts the sync with no remote write and no mutation of local state; the
resolution map and the cached remote Dataset are retained in component state
rather than discarded, but they are never used again — confirming is a no-op
once the modal is closed, and the next sync attempt re-fetches the remote
Dataset and re-initialises the resolution map from the fresh fetch alone. -/
theorem cancel_frame_and_refetch :
    (∀ w : World,
        (cancelConflictModal w).store = w.store
        ∧ (cancelConflictModal w).ui.localData = w.ui.localData
        ∧ (cancelConflictModal w).ui.syncId = w.ui.syncId
        ∧ (cancelConflictModal w).ui.showConflictModal = false
        ∧ (cancelConflictModal w).ui.remoteDataCache = w.ui.remoteDataCache
        ∧ (cancelConflictModal w).ui.resolutionMap = w.ui.resolutionMap)
    ∧ (∀ (writeOk : Bool) (w : World),
        handleConfirmResolution writeOk (cancelConflictModal w)
          = cancelConflictModal w)
    ∧ (∀ (writeOk : Bool) (w : World) (chk : ConflictCheck),
        chk.conflicts.length > 0 →
        (handleCloudSync (Except.ok chk) writeOk w).ui.remoteDataCache
            = chk.remoteData
        ∧ (handleCloudSync (Except.ok chk) writeOk w).ui.resolutionMap
            = initResolutionMap chk.conflicts
        ∧ (handleCloudSync (Except.ok chk) writeOk w).store = w.store)
    ∧ (∀ (writeOk : Bool) (w : World) (chk : ConflictCheck),
        ¬ chk.conflicts.length > 0 →
        handleCloudSync (Except.ok chk) writeOk w
          = performSync writeOk chk.remoteData []
              { w with ui :=
                  { w.ui with isSyncing := true, syncStatus := "idle" } }) := by
  refine ⟨fun w => ⟨rfl, rfl, rfl, rfl, rfl, rfl⟩, ?_, ?_, ?_⟩
  · intro writeOk w
    simp [handleConfirmResolution, cancelConflictModal]
  · intro writeOk w chk hconf
    simp [handleCloudSync, hconf]
  · intro writeOk w chk hconf
    simp [handleCloudSync, hconf]

/-- C6 amended witness: at `world1`, cancelling keeps store and local data
and closes the modal; confirming afterwards is a no-op; and a fresh sync with
one conflict caches the freshly fetched remote dataset `dsR` and the
re-initialised all-local map. -/
theorem cancel_frame_and_refetch_witness :
    ((cancelConflictModal world1).store = world1.store
      ∧ (cancelConflictModal world1).ui.localData = world1.ui.localData
      ∧ (cancelConflictModal world1).ui.syncId = world1.ui.syncId
      ∧ (cancelConflictModal world1).ui.showConflictModal = false
      ∧ (cancelConflictModal world1).ui.remoteDataCache
          = world1.ui.remoteDataCache
      ∧ (cancelConflictModal world1).ui.resolutionMap
          = world1.ui.resolutionMap)
    ∧ handleConfirmResolution true (cancelConflictModal world1)
        = cancelConflictModal world1
    ∧ ((handleCloudSync
          (Except.ok { conflicts := [conflictA], remoteData := some dsR })
          true (cancelConflictModal world1)).ui.remoteDataCache = some dsR
       ∧ (handleCloudSync
          (Except.ok { conflicts := [conflictA], remoteData := some dsR })
          true (cancelConflictModal world1)).ui.resolutionMap
            = initResolutionMap [conflictA]
       ∧ (handleCloudSync
          (Except.ok { conflicts := [conflictA], remoteData := some dsR })
          true (cancelConflictModal world1)).store
            = (cancelConflictModal world1).store) :=
  ⟨cancel_frame_and_refetch.1 world1,
   cancel_frame_and_refetch.2.1 true world1,
   cancel_frame_and_refetch.2.2.1 true (cancelConflictModal world1)
     { conflicts := [conflictA], remoteData := some dsR } (by decide)⟩

/-- C7: an attempted Sync Identifier change whose normalised candidate
(`tempId.trim().toUpperCase()`) is shorter than 4 characters or contains a
character outside uppercase letters, digits and hyphen is rejected before any
network call and leaves the stored identifier unchanged.  (The input field
uppercases as the user types, so the normalised candidate is the attempted
identifier.) -/
theorem saveEditedId_rejects_invalid (syncId tempId : String)
    (fetch : Except Unit (Option Dataset)) (confirms : Bool)
    (h : (jsToUpperCase (jsTrim tempId)).length < 4
         ∨ (jsToUpperCase (jsTrim tempId)).data.all isValidIdChar = false) :
    (saveEditedId syncId tempId fetch confirms).networkCalled = false
    ∧ (saveEditedId syncId tempId fetch confirms).syncId = syncId := by
  unfold saveEditedId
  by_cases h1 : jsToUpperCase (jsTrim tempId) = "" ∨ jsToUpperCase (jsTrim tempId) = syncId
  · simp [h1]
  · rw [if_neg h1]
    by_cases h2 : (jsToUpperCase (jsTrim tempId)).length < 4
    · simp [h2]
    · rw [if_neg h2]
      have hchars : (jsToUpperCase (jsTrim tempId)).data.all isValidIdChar = false := by
        rcases h with hlen | hch
        · exact absurd hlen h2
        · exact hch
      have hvalid : validSyncId (jsToUpperCase (jsTrim tempId)) = false := by
        simp [validSyncId, hchars]
      simp [hvalid]

/-- C7 witness: the two-character identifier `"AB"` is rejected with no
network call and the stored identifier `"SYNCID01"` untouched. -/
theorem saveEditedId_rejects_invalid_witness :
    (saveEditedId "SYNCID01" "AB" (Except.ok none) true).networkCalled = false
    ∧ (saveEditedId "SYNCID01" "AB" (Except.ok none) true).syncId = "SYNCID01" :=
  saveEditedId_rejects_invalid "SYNCID01" "AB" (Except.ok none) true
    (Or.inl (by decide))

/-- C8: changing the Sync Identifier to a valid new identifier under which
remote data already exists probes the store, warns the user, and switches the
stored identifier exactly when the user confirms. -/
theorem saveEditedId_warns_existing (syncId tempId : String) (d : Dataset)
    (confirms : Bool)
    (hne : jsToUpperCase (jsTrim tempId) ≠ syncId)
    (hlen : ¬ (jsToUpperCase (jsTrim tempId)).length < 4)
    (hchars : validSyncId (jsToUpperCase (jsTrim tempId)) = true) :
    (saveEditedId syncId tempId (Except.ok (some d)) confirms).networkCalled
        = true
    ∧ (saveEditedId syncId tempId (Except.ok (some d)) confirms).warnedExisting
        = true
    ∧ (saveEditedId syncId tempId (Except.ok (some d)) confirms).syncId
        = (if confirms then jsToUpperCase (jsTrim tempId) else syncId) := by
  unfold saveEditedId
  have h1 : ¬ (jsToUpperCase (jsTrim tempId) = ""
               ∨ jsToUpperCase (jsTrim tempId) = syncId) := by
    rintro (h0 | h0)
    · apply hlen
      rw [h0]
      decide
    · exact hne h0
  rw [if_neg h1, if_neg hlen]
  simp only [hchars]
  cases confirms <;> simp

/-- C8 witness: switching from `"OLD-ID"` to `"NEWID99"` while remote data
`dsB` exists under it warns and, with confirmation, commits the switch. -/
theorem saveEditedId_warns_existing_witness :
    (saveEditedId "OLD-ID" "NEWID99" (Except.ok (some dsB)) true).networkCalled
        = true
    ∧ (saveEditedId "OLD-ID" "NEWID99" (Except.ok (some dsB)) true).warnedExisting
        = true
    ∧ (saveEditedId "OLD-ID" "NEWID99" (Except.ok (some dsB)) true).syncId
        = (if true then jsToUpperCase (jsTrim "NEWID99") else "OLD-ID") :=
  saveEditedId_warns_existing "OLD-ID" "NEWID99" dsB true
    (by decide) (by decide) (by decide)

/-- C9: `handleSaveVersion` appends exactly one Trip Version for the trip
being edited (form state merged in), carrying the given note, or the
placeholder `"Auto-save"` when the note is the empty string. -/
theorem handleSaveVersion_appends (tid : String) (trips : List Trip)
    (fs : TripFormState) (versionNote versionId : String) (timestamp : Nat)
    (versionStore : List TripVersion) (currentTrip : Trip)
    (hfind : trips.find? (fun t => t.id = tid) = some currentTrip) :
    handleSaveVersion (some tid) trips fs versionNote versionId timestamp
        versionStore
      = versionStore
        ++ [{ id := versionId
            , tripId := (applyFormState currentTrip fs).id
            , timestamp := timestamp
            , note := if versionNote = "" then "Auto-save" else versionNote
            , data := applyFormState currentTrip fs }] := by
  simp [handleSaveVersion, hfind, saveTripVersion]

/-- C9 witness: saving a version of trip `A` with the empty note appends one
Trip Version with the placeholder note `"Auto-save"`. -/
theorem handleSaveVersion_appends_witness :
    handleSaveVersion (some "A") [tripA] fs0 "" "v1" 17 []
      = [] ++ [{ id := "v1"
               , tripId := (applyFormState tripA fs0).id
               , timestamp := 17
               , note := if "" = "" then "Auto-save" else ""
               , data := applyFormState tripA fs0 }] :=
  handleSaveVersion_appends "A" [tripA] fs0 "" "v1" 17 [] tripA (by decide)

/-- C10 counterexample: for the random draw `Math.random() = 0` (empty
base-36 fractional expansion) the generated identifier is the empty string,
and the mount effect persists that empty identifier — so the code does not
guarantee a non-empty Sync Identifier for every draw, contradicting the
claim. -/
theorem generateSyncId_zero_draw_empty :
    generateSyncId [] = "" ∧ syncIdEffect "" [] = ("", some "") := by
  decide

/-- The generated identifier for a nonzero draw is the uppercased first (at
most) eight fractional base-36 digit characters. -/
theorem generateSyncId_cons_data (x : Nat) (xs : List Nat) :
    (generateSyncId (x :: xs)).data
      = (((x :: xs).map base36Char).take 8).map Char.toUpper := by
  simp [generateSyncId, jsNumToString36, jsSubstring, jsToUpperCase]

/-- Every base-36 digit renders, after uppercasing, inside `[A-Z0-9]`. -/
theorem base36Char_toUpper_range :
    ∀ d : Nat, d < 36 →
      ((decide ('A' ≤ (base36Char d).toUpper)
         && decide ((base36Char d).toUpper ≤ 'Z'))
       || (decide ('0' ≤ (base36Char d).toUpper)
         && decide ((base36Char d).toUpper ≤ '9'))) = true := by
  decide

/-- C10 amended: when the stored Sync Identifier is empty, the mount effect
generates an identifier that is an uppercase base-36 string of at most 8
characters and persists it; the identifier is non-empty whenever the random
draw is nonzero (its base-36 fractional expansion is non-empty), and a
session that already has a non-empty identifier is left untouched. -/
theorem generateSyncId_shape (fracDigits : List Nat)
    (hvalid : ∀ d ∈ fracDigits, d < 36) :
    (generateSyncId fracDigits).length ≤ 8
    ∧ (generateSyncId fracDigits).data.all
        (fun c => (decide ('A' ≤ c) && decide (c ≤ 'Z'))
                  || (decide ('0' ≤ c) && decide (c ≤ '9'))) = true
    ∧ (fracDigits ≠ [] → generateSyncId fracDigits ≠ "")
    ∧ syncIdEffect "" fracDigits
        = (generateSyncId fracDigits, some (generateSyncId fracDigits))
    ∧ (∀ s : String, s ≠ "" → syncIdEffect s fracDigits = (s, none)) := by
  refine ⟨?_, ?_, ?_, rfl, ?_⟩
  · cases fracDigits with
    | nil => decide
    | cons x xs =>
        have hd := generateSyncId_cons_data x xs
        have : (generateSyncId (x :: xs)).length
            = ((((x :: xs).map base36Char).take 8).map Char.toUpper).length := by
          rw [← hd]
          rfl
        rw [this]
        simp [List.length_take]
  · cases fracDigits with
    | nil => decide
    | cons x xs =>
        rw [generateSyncId_cons_data x xs]
        rw [List.all_eq_true]
        intro c hc
        obtain ⟨c0, hc0mem, hc0⟩ := List.mem_map.1 hc
        have hc0take := List.mem_of_mem_take hc0mem
        obtain ⟨d, hdmem, hdc⟩ := List.mem_map.1 hc0take
        subst hc0
        subst hdc
        exact base36Char_toUpper_range d (hvalid d hdmem)
  · intro hne
    cases fracDigits with
    | nil => exact absurd rfl hne
    | cons x xs =>
        intro hempty
        have hdata : (generateSyncId (x :: xs)).data = [] :=
          congrArg String.data hempty
        rw [generateSyncId_cons_data x xs] at hdata
        exact absurd hdata (by simp)
  · intro s hs
    simp [syncIdEffect, hs]

/-- C10 amended witness: the draw with fractional base-36 digits
`[15, 2, 35]` generates the identifier `"F2Z"` — at most 8 characters, all in
`[A-Z0-9]`, non-empty — which the effect persists; a stored identifier is
left alone. -/
theorem generateSyncId_shape_witness :
    (generateSyncId [15, 2, 35]).length ≤ 8
    ∧ (generateSyncId [15, 2, 35]).data.all
        (fun c => (decide ('A' ≤ c) && decide (c ≤ 'Z'))
                  || (decide ('0' ≤ c) && decide (c ≤ '9'))) = true
    ∧ ([15, 2, 35] ≠ ([] : List Nat) → generateSyncId [15, 2, 35] ≠ "")
    ∧ syncIdEffect "" [15, 2, 35]
        = (generateSyncId [15, 2, 35], some (generateSyncId [15, 2, 35]))
    ∧ (∀ s : String, s ≠ "" → syncIdEffect s [15, 2, 35] = (s, none)) :=
  generateSyncId_shape [15, 2, 35] (by decide)

end Wanderlust
